import Mathlib

/-!
A verification development for the Conv-TasNet speech-separation model
(`src/conv_tasnet.py`): a shallow embedding of its tensors, layers and
checkpoint (de)serialization, together with theorems about the properties
the repository's specification states.

Modelling conventions:
* Scalars are rationals.  The two real-valued transcendental operations the
  network uses — the exponential inside the softmax and the square root
  inside `pow(var + EPS, 0.5)` — are passed to the forward functions as
  explicit function parameters `e` and `s`; theorems that need a property of
  them (such as positivity of the exponential) take it as a hypothesis, so
  every statement holds in particular for the real functions.
* A tensor is a structure holding its shape and a total indexing function;
  reads outside the shape return unspecified junk values that no theorem
  depends on.
* Operations that can raise in torch on a shape mismatch (convolution,
  residual addition, `view`, the decoder's broadcast product, linear layers)
  return `Option`, with the guard mirroring torch's shape checks; `none`
  models the raised exception.
-/

/-- EPS = 1e-8, the constant added inside the variance square root. -/
def EPS : ℚ := 1 / 100000000

/-- A 3-dimensional tensor: shape `[d0, d1, d2]` plus a total data function. -/
structure Tensor3 where
  d0 : ℕ
  d1 : ℕ
  d2 : ℕ
  data : ℕ → ℕ → ℕ → ℚ

/-- A 4-dimensional tensor: shape `[d0, d1, d2, d3]` plus a total data function. -/
structure Tensor4 where
  d0 : ℕ
  d1 : ℕ
  d2 : ℕ
  d3 : ℕ
  data : ℕ → ℕ → ℕ → ℕ → ℚ

/-- `x.permute((0, 2, 1))` on a 3-D tensor. -/
def Tensor3.permute021 (t : Tensor3) : Tensor3 :=
  ⟨t.d0, t.d2, t.d1, fun i j k => t.data i k j⟩

/-- `x.permute((0, 2, 1, 3))` on a 4-D tensor (used by the decoder). -/
def Tensor4.permute0213 (t : Tensor4) : Tensor4 :=
  ⟨t.d0, t.d2, t.d1, t.d3, fun a b c d => t.data a c b d⟩

/-- `F.relu`: elementwise `max 0`. -/
def reluT (t : Tensor3) : Tensor3 :=
  ⟨t.d0, t.d1, t.d2, fun i j k => max 0 (t.data i j k)⟩

/-- Elementwise addition `out + residual`; torch raises unless the shapes
agree (the network only ever adds tensors of identical shape). -/
def addT (x y : Tensor3) : Option Tensor3 :=
  if x.d0 = y.d0 ∧ x.d1 = y.d1 ∧ x.d2 = y.d2 then
    some ⟨x.d0, x.d1, x.d2, fun i j k => x.data i j k + y.data i j k⟩
  else none

/-- Reading the zero-padded input of a 1-D convolution: channel `ch` of batch
`m`, position `idx` of the padded axis (length `pad + d2 + pad`). -/
def padAt (t : Tensor3) (m ch pad idx : ℕ) : ℚ :=
  if pad ≤ idx ∧ idx < pad + t.d2 then t.data m ch (idx - pad) else 0

/-- `nn.Conv1d(in_channels, out_channels, kernel_size, stride, padding,
dilation, groups, bias=False)`: the module's hyperparameters and weight.
The weight is indexed `(out_channel, in_channel_within_group, tap)`. -/
structure Conv1d where
  in_channels : ℕ
  out_channels : ℕ
  kernel_size : ℕ
  stride : ℕ
  padding : ℕ
  dilation : ℕ
  groups : ℕ
  weight : ℕ → ℕ → ℕ → ℚ

/-- The forward pass of `nn.Conv1d` on `[M, C_in, K]`, `none` on the shape
errors torch raises: channel mismatch, non-positive kernel / stride /
dilation / groups, group divisibility, or an empty output axis. -/
def Conv1d.forward (c : Conv1d) (x : Tensor3) : Option Tensor3 :=
  if x.d1 = c.in_channels ∧ 1 ≤ c.kernel_size ∧ 1 ≤ c.stride ∧ 1 ≤ c.dilation ∧
      1 ≤ c.groups ∧ c.in_channels % c.groups = 0 ∧ c.out_channels % c.groups = 0 ∧
      c.dilation * (c.kernel_size - 1) + 1 ≤ x.d2 + 2 * c.padding then
    some ⟨x.d0, c.out_channels,
      (x.d2 + 2 * c.padding - (c.dilation * (c.kernel_size - 1) + 1)) / c.stride + 1,
      fun m o t =>
        ∑ ci ∈ Finset.range (c.in_channels / c.groups), ∑ j ∈ Finset.range c.kernel_size,
          c.weight o ci j *
            padAt x m (o / (c.out_channels / c.groups) * (c.in_channels / c.groups) + ci)
              c.padding (t * c.stride + j * c.dilation)⟩
  else none

/-- `nn.Linear(in_features, out_features, bias=False)`. -/
structure Linear where
  in_features : ℕ
  out_features : ℕ
  weight : ℕ → ℕ → ℚ

/-- A linear layer applied to the last axis of a 4-D tensor, as
`self.basis_signals(source_w)` does; torch raises on a feature mismatch. -/
def Linear.forward4 (l : Linear) (x : Tensor4) : Option Tensor4 :=
  if x.d3 = l.in_features then
    some ⟨x.d0, x.d1, x.d2, l.out_features,
      fun m k c o => ∑ n ∈ Finset.range l.in_features, l.weight o n * x.data m k c n⟩
  else none

/-- `nn.PReLU()` with its single learnable slope (initialised to 1/4). -/
structure PReLU where
  a : ℚ

/-- PReLU forward: identity on nonnegative entries, slope `a` on negatives. -/
def PReLU.forward (p : PReLU) (t : Tensor3) : Tensor3 :=
  ⟨t.d0, t.d1, t.d2, fun i j k =>
    if 0 ≤ t.data i j k then t.data i j k else p.a * t.data i j k⟩

/-- `Chomp1d(chomp_size)`. -/
structure Chomp1d where
  chomp_size : ℕ

/-- `x[:, :, :-self.chomp_size]`: drops the trailing `chomp_size` positions.
Python's negative-stop slicing makes `[:-0]` the EMPTY slice, so a chomp of
size 0 empties the time axis instead of leaving it unchanged. -/
def Chomp1d.forward (c : Chomp1d) (t : Tensor3) : Tensor3 :=
  ⟨t.d0, t.d1, if c.chomp_size = 0 then 0 else t.d2 - c.chomp_size, t.data⟩

/-- `score.view(M, K, C, N)` of a (logically) contiguous 3-D tensor: row-major
reinterpretation; torch raises when the element counts disagree. -/
def Tensor3.view4 (t : Tensor3) (a b c d : ℕ) : Option Tensor4 :=
  if t.d0 * t.d1 * t.d2 = a * b * c * d then
    some ⟨a, b, c, d, fun i j k l =>
      let f := ((i * b + j) * c + k) * d + l
      t.data (f / (t.d1 * t.d2)) (f / t.d2 % t.d1) (f % t.d2)⟩
  else none

/-- `F.softmax(score, dim=2)` on `[M, K, C, N]`, with the exponential given
as the function parameter `e`. -/
def softmax4 (e : ℚ → ℚ) (t : Tensor4) : Tensor4 :=
  ⟨t.d0, t.d1, t.d2, t.d3, fun m k c n =>
    e (t.data m k c n) / ∑ i ∈ Finset.range t.d2, e (t.data m k i n)⟩

/-- `torch.unsqueeze(mixture_w, 2) * est_mask`: the decoder's broadcast
product of `[M, K, N]` against `[M, K, C, N]`; torch raises unless the
non-broadcast axes agree. -/
def mulMask (w : Tensor3) (mask : Tensor4) : Option Tensor4 :=
  if w.d0 = mask.d0 ∧ w.d1 = mask.d1 ∧ w.d2 = mask.d3 then
    some ⟨mask.d0, mask.d1, mask.d2, mask.d3,
      fun m k c n => w.data m k n * mask.data m k c n⟩
  else none

/-- `ChannelwiseLayerNorm(channel_size)`: learnable per-channel gain and
bias, both of shape `[1, channel_size, 1]` (modelled as functions of the
channel index); `reset_parameters` fills them with 1 and 0. -/
structure ChannelwiseLayerNorm where
  channel_size : ℕ
  gamma : ℕ → ℚ
  beta : ℕ → ℚ

/-- `ChannelwiseLayerNorm` after `reset_parameters`: gamma 1, beta 0. -/
def ChannelwiseLayerNorm.init (c : ℕ) : ChannelwiseLayerNorm :=
  ⟨c, fun _ => 1, fun _ => 0⟩

/-- `torch.mean(y, dim=1, keepdim=True)` at batch `m`, position `k`. -/
def clnMean (y : Tensor3) (m k : ℕ) : ℚ :=
  (∑ i ∈ Finset.range y.d1, y.data m i k) / (y.d1 : ℚ)

/-- `torch.var(y, dim=1, keepdim=True, unbiased=False)` at batch `m`,
position `k`: the biased (population) variance across the channel axis. -/
def clnVar (y : Tensor3) (m k : ℕ) : ℚ :=
  (∑ i ∈ Finset.range y.d1, (y.data m i k - clnMean y m k) ^ 2) / (y.d1 : ℚ)

/-- cLN forward: `gamma * (y - mean) / pow(var + EPS, 0.5) + beta`, the
statistics taken across the channel axis only; `s` stands for the square
root. -/
def ChannelwiseLayerNorm.forward (s : ℚ → ℚ) (mod : ChannelwiseLayerNorm)
    (y : Tensor3) : Tensor3 :=
  ⟨y.d0, y.d1, y.d2, fun m n k =>
    mod.gamma n * (y.data m n k - clnMean y m k) / s (clnVar y m k + EPS) + mod.beta n⟩

/-- `GlobalLayerNorm(channel_size)`: same parameter layout as the
channel-wise variant. -/
structure GlobalLayerNorm where
  channel_size : ℕ
  gamma : ℕ → ℚ
  beta : ℕ → ℚ

/-- `GlobalLayerNorm` after `reset_parameters`: gamma 1, beta 0. -/
def GlobalLayerNorm.init (c : ℕ) : GlobalLayerNorm :=
  ⟨c, fun _ => 1, fun _ => 0⟩

/-- `y.mean(dim=1, keepdim=True).mean(dim=2, keepdim=True)` at batch `m`. -/
def glnMean (y : Tensor3) (m : ℕ) : ℚ :=
  (∑ k ∈ Finset.range y.d2, (∑ i ∈ Finset.range y.d1, y.data m i k) / (y.d1 : ℚ)) /
    (y.d2 : ℚ)

/-- `torch.pow(y - mean, 2).mean(dim=1, ...).mean(dim=2, ...)` at batch `m`. -/
def glnVar (y : Tensor3) (m : ℕ) : ℚ :=
  (∑ k ∈ Finset.range y.d2,
      (∑ i ∈ Finset.range y.d1, (y.data m i k - glnMean y m) ^ 2) / (y.d1 : ℚ)) /
    (y.d2 : ℚ)

/-- gLN forward: statistics taken jointly across channel and time. -/
def GlobalLayerNorm.forward (s : ℚ → ℚ) (mod : GlobalLayerNorm)
    (y : Tensor3) : Tensor3 :=
  ⟨y.d0, y.d1, y.d2, fun m n k =>
    mod.gamma n * (y.data m n k - glnMean y m) / s (glnVar y m + EPS) + mod.beta n⟩

/-- `nn.BatchNorm1d(channel_size)`: the externally defined fallback variant.
Torch initialises its affine weight to 1 and bias to 0; its running
statistics do not enter the training-mode forward output and are omitted. -/
structure BatchNorm1d where
  num_features : ℕ
  weight : ℕ → ℚ
  bias : ℕ → ℚ

/-- A fresh `nn.BatchNorm1d(channel_size)`. -/
def BatchNorm1d.init (c : ℕ) : BatchNorm1d :=
  ⟨c, fun _ => 1, fun _ => 0⟩

/-- Per-channel batch mean of `[M, N, K]` over batch and time. -/
def bnMean (y : Tensor3) (n : ℕ) : ℚ :=
  (∑ m ∈ Finset.range y.d0, ∑ k ∈ Finset.range y.d2, y.data m n k) /
    ((y.d0 * y.d2 : ℕ) : ℚ)

/-- Per-channel biased batch variance of `[M, N, K]` over batch and time. -/
def bnVar (y : Tensor3) (n : ℕ) : ℚ :=
  (∑ m ∈ Finset.range y.d0, ∑ k ∈ Finset.range y.d2, (y.data m n k - bnMean y n) ^ 2) /
    ((y.d0 * y.d2 : ℕ) : ℚ)

/-- Training-mode `nn.BatchNorm1d` forward with torch's default eps 1e-5. -/
def BatchNorm1d.forward (s : ℚ → ℚ) (mod : BatchNorm1d) (y : Tensor3) : Tensor3 :=
  ⟨y.d0, y.d1, y.d2, fun m n k =>
    (y.data m n k - bnMean y n) / s (bnVar y n + 1 / 100000) * mod.weight n + mod.bias n⟩

/-- The three module kinds `chose_norm` can return. -/
inductive NormModule where
  | gLN (mod : GlobalLayerNorm)
  | cLN (mod : ChannelwiseLayerNorm)
  | bn (mod : BatchNorm1d)

/-- Forward of whichever normalization module was chosen. -/
def NormModule.forward (s : ℚ → ℚ) : NormModule → Tensor3 → Tensor3
  | .gLN mod, y => GlobalLayerNorm.forward s mod y
  | .cLN mod, y => ChannelwiseLayerNorm.forward s mod y
  | .bn mod, y => BatchNorm1d.forward s mod y

/-- Whether the module is the global variant. -/
def NormModule.isGLN : NormModule → Bool
  | .gLN _ => true
  | _ => false

/-- The parameter-key schema a norm module contributes to `state_dict`: the
two custom variants register parameters named `gamma` and `beta`, while
`nn.BatchNorm1d` registers `weight`, `bias` and its running-statistic
buffers — differently named keys, which torch's strict `load_state_dict`
refuses to mix. -/
inductive NormKeyKind where
  | gammaBeta
  | batchNorm
deriving DecidableEq

/-- Which key schema a norm module's parameters use. -/
def NormModule.keyKind : NormModule → NormKeyKind
  | .gLN _ => .gammaBeta
  | .cLN _ => .gammaBeta
  | .bn _ => .batchNorm

/-- The norm-type discriminator strings. -/
def normGLN : String := "gLN"

/-- The channel-wise discriminator string. -/
def normCLN : String := "cLN"

/-- `chose_norm(norm_type, channel_size)`: `"gLN"` and `"cLN"` select the two
custom variants; EVERY other string falls through to `nn.BatchNorm1d`. -/
def chose_norm (norm_type : String) (channel_size : ℕ) : NormModule :=
  if norm_type = normGLN then .gLN (GlobalLayerNorm.init channel_size)
  else if norm_type = normCLN then .cLN (ChannelwiseLayerNorm.init channel_size)
  else .bn (BatchNorm1d.init channel_size)

/-- `DepthwiseSeparableConv(in_channels, out_channels, kernel_size, stride,
padding, dilation, norm_type)`. -/
structure DepthwiseSeparableConv where
  depthwise_conv : Conv1d
  chomp : Chomp1d
  prelu : PReLU
  norm : NormModule
  pointwise_conv : Conv1d

/-- Constructing `DepthwiseSeparableConv` as `__init__` does; `wd` and `wp`
are the (randomly initialised, hence arbitrary) convolution weights. -/
def DepthwiseSeparableConv.init (in_channels out_channels kernel_size stride
    padding dilation : ℕ) (norm_type : String)
    (wd wp : ℕ → ℕ → ℕ → ℚ) : DepthwiseSeparableConv :=
  ⟨⟨in_channels, in_channels, kernel_size, stride, padding, dilation, in_channels, wd⟩,
   ⟨padding⟩, ⟨1 / 4⟩, chose_norm norm_type in_channels,
   ⟨in_channels, out_channels, 1, 1, 0, 1, 1, wp⟩⟩

/-- `DepthwiseSeparableConv.forward`: depthwise convolution, chomp, PReLU,
normalization, pointwise convolution. -/
def DepthwiseSeparableConv.forward (s : ℚ → ℚ) (mod : DepthwiseSeparableConv)
    (x : Tensor3) : Option Tensor3 := do
  let a ← mod.depthwise_conv.forward x
  let b := mod.chomp.forward a
  let c := mod.prelu.forward b
  let d := mod.norm.forward s c
  mod.pointwise_conv.forward d

/-- `TemporalBlock(in_channels, out_channels, kernel_size, stride, padding,
dilation, norm_type)`. -/
structure TemporalBlock where
  conv1x1 : Conv1d
  prelu : PReLU
  norm : NormModule
  dsconv : DepthwiseSeparableConv

/-- Constructing `TemporalBlock` as `__init__` does. -/
def TemporalBlock.init (in_channels out_channels kernel_size stride padding
    dilation : ℕ) (norm_type : String)
    (w1 wd wp : ℕ → ℕ → ℕ → ℚ) : TemporalBlock :=
  ⟨⟨in_channels, out_channels, 1, 1, 0, 1, 1, w1⟩, ⟨1 / 4⟩,
   chose_norm norm_type out_channels,
   DepthwiseSeparableConv.init out_channels in_channels kernel_size stride
     padding dilation norm_type wd wp⟩

/-- `TemporalBlock.forward`: the inner net followed by the residual
connection and a final ReLU. -/
def TemporalBlock.forward (s : ℚ → ℚ) (b : TemporalBlock)
    (x : Tensor3) : Option Tensor3 := do
  let o1 ← b.conv1x1.forward x
  let o2 := b.prelu.forward o1
  let o3 := b.norm.forward s o2
  let o4 ← b.dsconv.forward s o3
  let o5 ← addT o4 x
  return reluT o5

/-- `TemporalConvNet(N, B, H, P, X, R, C, norm_type)`: the separator. -/
structure TemporalConvNet where
  N : ℕ
  B : ℕ
  H : ℕ
  P : ℕ
  X : ℕ
  R : ℕ
  C : ℕ
  layer_norm : ChannelwiseLayerNorm
  bottleneck_conv1x1 : Conv1d
  blocks : List (List TemporalBlock)
  mask_conv1x1 : Conv1d

/-- Constructing `TemporalConvNet` as `__init__` does: `R` repeats of `X`
blocks with dilation `2 ** x` and padding `(P - 1) * 2 ** x`; `wc`, `wd`,
`wp` supply each block's three convolution weights by repeat and block
index, `wb` and `wm` the bottleneck and mask 1x1-convolution weights. -/
def TemporalConvNet.init (N B H P X R C : ℕ) (norm_type : String)
    (wb : ℕ → ℕ → ℕ → ℚ) (wc wd wp : ℕ → ℕ → ℕ → ℕ → ℕ → ℚ)
    (wm : ℕ → ℕ → ℕ → ℚ) : TemporalConvNet :=
  ⟨N, B, H, P, X, R, C, ChannelwiseLayerNorm.init N,
   ⟨N, B, 1, 1, 0, 1, 1, wb⟩,
   (List.range R).map (fun r =>
     (List.range X).map (fun x =>
       TemporalBlock.init B H P 1 ((P - 1) * 2 ^ x) (2 ^ x) norm_type
         (wc r x) (wd r x) (wp r x))),
   ⟨B, C * N, 1, 1, 0, 1, 1, wm⟩⟩

/-- Running one `nn.Sequential` repeat of temporal blocks. -/
def seqBlocks (s : ℚ → ℚ) (bs : List TemporalBlock) (x : Tensor3) : Option Tensor3 :=
  bs.foldl (fun acc b => acc.bind (TemporalBlock.forward s b)) (some x)

/-- Running the `nn.Sequential` of repeats. -/
def seqRepeats (s : ℚ → ℚ) (rs : List (List TemporalBlock)) (x : Tensor3) :
    Option Tensor3 :=
  rs.foldl (fun acc bs => acc.bind (seqBlocks s bs)) (some x)

/-- `TemporalConvNet.forward`: `[M, K, N] -> [M, K, C, N]`; permute to
channel-first, run layer norm, bottleneck, the repeats and the mask
convolution, permute back, split the source axis, softmax over it. -/
def TemporalConvNet.forward (e s : ℚ → ℚ) (tcn : TemporalConvNet)
    (mixture_w : Tensor3) : Option Tensor4 := do
  let x := mixture_w.permute021
  let x1 := tcn.layer_norm.forward s x
  let x2 ← tcn.bottleneck_conv1x1.forward x1
  let x3 ← seqRepeats s tcn.blocks x2
  let score ← tcn.mask_conv1x1.forward x3
  let v ← score.permute021.view4 mixture_w.d0 mixture_w.d1 tcn.C mixture_w.d2
  return softmax4 e v

/-- `Encoder(L, N)`: a kernel-1 `nn.Conv1d(L, N, bias=False)`. -/
structure Encoder where
  L : ℕ
  N : ℕ
  conv1d_U : Conv1d

/-- Constructing `Encoder` as `__init__` does. -/
def Encoder.init (L N : ℕ) (w : ℕ → ℕ → ℕ → ℚ) : Encoder :=
  ⟨L, N, ⟨L, N, 1, 1, 0, 1, 1, w⟩⟩

/-- `Encoder.forward`: permute `[M, K, L]` to `[M, L, K]`, convolve, rectify
with `F.relu`, permute back to `[M, K, N]`. -/
def Encoder.forward (enc : Encoder) (mixture : Tensor3) : Option Tensor3 := do
  let c ← enc.conv1d_U.forward mixture.permute021
  return (reluT c).permute021

/-- `Decoder(N, L)`: the shared linear synthesis basis. -/
structure Decoder where
  N : ℕ
  L : ℕ
  basis_signals : Linear

/-- Constructing `Decoder` as `__init__` does. -/
def Decoder.init (N L : ℕ) (w : ℕ → ℕ → ℚ) : Decoder :=
  ⟨N, L, ⟨N, L, w⟩⟩

/-- `Decoder.forward`: mask the latent representation, synthesise with the
shared basis, group by source: `[M, K, N] x [M, K, C, N] -> [M, C, K, L]`. -/
def Decoder.forward (dec : Decoder) (mixture_w : Tensor3) (est_mask : Tensor4) :
    Option Tensor4 := do
  let source_w ← mulMask mixture_w est_mask
  let est_source ← dec.basis_signals.forward4 source_w
  return est_source.permute0213

/-- `ConvTasNet(N, L, B, H, P, X, R, C, norm_type)`.  `__init__` stores the
eight numeric hyperparameters as attributes — but NOT `norm_type` — and
builds the three submodules. -/
structure ConvTasNet where
  N : ℕ
  L : ℕ
  B : ℕ
  H : ℕ
  P : ℕ
  X : ℕ
  R : ℕ
  C : ℕ
  encoder : Encoder
  separator : TemporalConvNet
  decoder : Decoder

/-- Constructing `ConvTasNet` as `__init__` does, the convolution and linear
weights supplied as parameters (torch draws them randomly). -/
def ConvTasNet.init (N L B H P X R C : ℕ) (norm_type : String)
    (wEnc : ℕ → ℕ → ℕ → ℚ) (wDec : ℕ → ℕ → ℚ) (wb : ℕ → ℕ → ℕ → ℚ)
    (wc wd wp : ℕ → ℕ → ℕ → ℕ → ℕ → ℚ) (wm : ℕ → ℕ → ℕ → ℚ) : ConvTasNet :=
  ⟨N, L, B, H, P, X, R, C, Encoder.init L N wEnc,
   TemporalConvNet.init N B H P X R C norm_type wb wc wd wp wm,
   Decoder.init N L wDec⟩

/-- `ConvTasNet.forward`: encoder, separator, decoder. -/
def ConvTasNet.forward (e s : ℚ → ℚ) (net : ConvTasNet) (mixture : Tensor3) :
    Option Tensor4 := do
  let mixture_w ← net.encoder.forward mixture
  let est_mask ← net.separator.forward e s mixture_w
  net.decoder.forward mixture_w est_mask

/-- The optimizer only enters `serialize` through `optimizer.state_dict()`;
its state is opaque to the model and modelled as an abstract payload. -/
structure Optimizer where
  sd : ℕ

/-- What `model.state_dict()` carries: torch keys the entries by
module-path names.  The record stores every parameter value by position
(repeat index `r`, block index `x`, then the tensor indices) and, per norm
module, WHICH key schema its entries use — `gamma`/`beta` for the two
custom variants versus `weight`/`bias`/running statistics for
`BatchNorm1d`.  That schema mismatch is what makes a BatchNorm checkpoint
unloadable into a gLN-built model under torch's strict `load_state_dict`;
the gLN and cLN variants share the `gamma`/`beta` names, so their values
interchange.  A BatchNorm module's affine `weight`/`bias` values are
recorded in the same two value slots but under the `batchNorm` schema tag;
its running-statistic buffers do not enter the training-mode forward and
are below the value abstraction (no modelled flow loads into a BatchNorm
target). -/
structure StateDict where
  encW : ℕ → ℕ → ℕ → ℚ
  decW : ℕ → ℕ → ℚ
  lnGamma : ℕ → ℚ
  lnBeta : ℕ → ℚ
  bottleneckW : ℕ → ℕ → ℕ → ℚ
  blockConvW : ℕ → ℕ → ℕ → ℕ → ℕ → ℚ
  blockPreluA : ℕ → ℕ → ℚ
  blockNormGamma : ℕ → ℕ → ℕ → ℚ
  blockNormBeta : ℕ → ℕ → ℕ → ℚ
  dwW : ℕ → ℕ → ℕ → ℕ → ℕ → ℚ
  dsPreluA : ℕ → ℕ → ℚ
  dsNormGamma : ℕ → ℕ → ℕ → ℚ
  dsNormBeta : ℕ → ℕ → ℕ → ℚ
  pwW : ℕ → ℕ → ℕ → ℕ → ℕ → ℚ
  maskW : ℕ → ℕ → ℕ → ℚ
  blockNormKeys : ℕ → ℕ → NormKeyKind
  dsNormKeys : ℕ → ℕ → NormKeyKind

/-- The gain parameter of whichever norm variant a block holds (`gamma` for
the two custom variants, the affine `weight` of `BatchNorm1d`). -/
def NormModule.gammaOf : NormModule → ℕ → ℚ
  | .gLN mod => mod.gamma
  | .cLN mod => mod.gamma
  | .bn mod => mod.weight

/-- The bias parameter of whichever norm variant a block holds. -/
def NormModule.betaOf : NormModule → ℕ → ℚ
  | .gLN mod => mod.beta
  | .cLN mod => mod.beta
  | .bn mod => mod.bias

/-- A throwaway block, used only as the out-of-range default of list reads. -/
def blockDefault : TemporalBlock :=
  TemporalBlock.init 0 0 1 1 0 1 normGLN (fun _ _ _ => 0) (fun _ _ _ => 0)
    (fun _ _ _ => 0)

/-- The block of repeat `r`, position `x`. -/
def TemporalConvNet.getBlock (tcn : TemporalConvNet) (r x : ℕ) : TemporalBlock :=
  (tcn.blocks.getD r []).getD x blockDefault

/-- `model.state_dict()`: the snapshot of every learnable parameter. -/
def ConvTasNet.state_dict (m : ConvTasNet) : StateDict :=
  ⟨m.encoder.conv1d_U.weight, m.decoder.basis_signals.weight,
   m.separator.layer_norm.gamma, m.separator.layer_norm.beta,
   m.separator.bottleneck_conv1x1.weight,
   fun r x => (m.separator.getBlock r x).conv1x1.weight,
   fun r x => (m.separator.getBlock r x).prelu.a,
   fun r x => (m.separator.getBlock r x).norm.gammaOf,
   fun r x => (m.separator.getBlock r x).norm.betaOf,
   fun r x => (m.separator.getBlock r x).dsconv.depthwise_conv.weight,
   fun r x => (m.separator.getBlock r x).dsconv.prelu.a,
   fun r x => (m.separator.getBlock r x).dsconv.norm.gammaOf,
   fun r x => (m.separator.getBlock r x).dsconv.norm.betaOf,
   fun r x => (m.separator.getBlock r x).dsconv.pointwise_conv.weight,
   m.separator.mask_conv1x1.weight,
   fun r x => (m.separator.getBlock r x).norm.keyKind,
   fun r x => (m.separator.getBlock r x).dsconv.norm.keyKind⟩

/-- A convolution module with its weight replaced (all hyperparameters
kept), as `load_state_dict` does parameter-wise. -/
def Conv1d.setWeight (c : Conv1d) (w : ℕ → ℕ → ℕ → ℚ) : Conv1d :=
  ⟨c.in_channels, c.out_channels, c.kernel_size, c.stride, c.padding,
   c.dilation, c.groups, w⟩

/-- A norm module with its two parameters replaced, the variant kept. -/
def NormModule.setParams (g b : ℕ → ℚ) : NormModule → NormModule
  | .gLN mod => .gLN ⟨mod.channel_size, g, b⟩
  | .cLN mod => .cLN ⟨mod.channel_size, g, b⟩
  | .bn mod => .bn ⟨mod.num_features, g, b⟩

/-- One block after `load_state_dict` replaced its parameters with the
entries recorded at `(r, x)`. -/
def TemporalBlock.loadFrom (b : TemporalBlock) (sd : StateDict) (r x : ℕ) :
    TemporalBlock :=
  ⟨b.conv1x1.setWeight (sd.blockConvW r x), ⟨sd.blockPreluA r x⟩,
   b.norm.setParams (sd.blockNormGamma r x) (sd.blockNormBeta r x),
   ⟨b.dsconv.depthwise_conv.setWeight (sd.dwW r x), b.dsconv.chomp,
    ⟨sd.dsPreluA r x⟩,
    b.dsconv.norm.setParams (sd.dsNormGamma r x) (sd.dsNormBeta r x),
    b.dsconv.pointwise_conv.setWeight (sd.pwW r x)⟩⟩

/-- Torch's strict `load_state_dict` accepts a snapshot only when its key
set equals the target's.  All convolution, linear and PReLU keys always
agree here, so over the target's block grid the comparison comes down to
each norm module's key schema.  (The record's total functions carry no
grid extent of their own, so a snapshot grid of a different shape than the
target's — impossible in the flows modelled here, where the loader rebuilds
the grid from the same package's `R` and `X` — is below this
abstraction.) -/
def stateDictKeysMatch (m : ConvTasNet) (sd : StateDict) : Bool :=
  (List.range m.separator.R).all fun r => (List.range m.separator.X).all fun x =>
    decide (sd.blockNormKeys r x = (m.separator.getBlock r x).norm.keyKind) &&
    decide (sd.dsNormKeys r x = (m.separator.getBlock r x).dsconv.norm.keyKind)

/-- `model.load_state_dict(sd)` in torch's strict default mode: when every
key matches, every learnable parameter of `m` is replaced by the snapshot's
value and the architecture (hyperparameters, norm variants, block grid,
which for a constructed model has `R` rows of `X` blocks) is kept; on a key
mismatch — a BatchNorm-keyed snapshot into a gLN/cLN-built model, or the
reverse — torch raises a `RuntimeError` and no model is produced. -/
def ConvTasNet.load_state_dict (m : ConvTasNet) (sd : StateDict) :
    Except String ConvTasNet :=
  if stateDictKeysMatch m sd then .ok
  ⟨m.N, m.L, m.B, m.H, m.P, m.X, m.R, m.C,
   ⟨m.encoder.L, m.encoder.N, m.encoder.conv1d_U.setWeight sd.encW⟩,
   ⟨m.separator.N, m.separator.B, m.separator.H, m.separator.P, m.separator.X,
    m.separator.R, m.separator.C,
    ⟨m.separator.layer_norm.channel_size, sd.lnGamma, sd.lnBeta⟩,
    m.separator.bottleneck_conv1x1.setWeight sd.bottleneckW,
    (List.range m.separator.R).map (fun r =>
      (List.range m.separator.X).map (fun x =>
        (m.separator.getBlock r x).loadFrom sd r x)),
    m.separator.mask_conv1x1.setWeight sd.maskW⟩,
   ⟨m.decoder.N, m.decoder.L,
    ⟨m.decoder.basis_signals.in_features, m.decoder.basis_signals.out_features,
     sd.decW⟩⟩⟩
  else .error ("RuntimeError: state_dict parameter keys do not match")

/-- A value stored in a checkpoint package. -/
inductive PVal where
  | nat (n : ℕ)
  | sd (s : StateDict)
  | od (o : ℕ)
  | loss (q : Option ℚ)

/-- A checkpoint package: Python's dict, modelled as a key-ordered
association list (serialize writes each key once). -/
def Package : Type := List (String × PVal)

/-- The eight hyperparameter keys. -/
def keyN : String := "N"

/-- Hyperparameter key L. -/
def keyL : String := "L"

/-- Hyperparameter key B. -/
def keyB : String := "B"

/-- Hyperparameter key H. -/
def keyH : String := "H"

/-- Hyperparameter key P. -/
def keyP : String := "P"

/-- Hyperparameter key X. -/
def keyX : String := "X"

/-- Hyperparameter key R. -/
def keyR : String := "R"

/-- Hyperparameter key C. -/
def keyC : String := "C"

/-- The parameter-snapshot key. -/
def keyStateDict : String := "state_dict"

/-- The optimizer-snapshot key. -/
def keyOptimDict : String := "optim_dict"

/-- The epoch-counter key. -/
def keyEpoch : String := "epoch"

/-- The running-train-loss key. -/
def keyTrLoss : String := "tr_loss"

/-- The running-validation-loss key. -/
def keyCvLoss : String := "cv_loss"

/-- `ConvTasNet.serialize(model, optimizer, epoch, tr_loss, cv_loss)`: the
eight hyperparameters, the parameter snapshot, the optimizer snapshot and
the epoch always; `tr_loss` AND `cv_loss` only when `tr_loss is not None`
(`cv_loss` is then stored even if it is `None`).  `norm_type` is NOT
stored. -/
def ConvTasNet.serialize (model : ConvTasNet) (optimizer : Optimizer)
    (epoch : ℕ) (tr_loss cv_loss : Option ℚ) : Package :=
  [(keyN, .nat model.N), (keyL, .nat model.L), (keyB, .nat model.B),
   (keyH, .nat model.H), (keyP, .nat model.P), (keyX, .nat model.X),
   (keyR, .nat model.R), (keyC, .nat model.C),
   (keyStateDict, .sd model.state_dict), (keyOptimDict, .od optimizer.sd),
   (keyEpoch, .nat epoch)] ++
  (match tr_loss with
   | some _ => [(keyTrLoss, .loss tr_loss), (keyCvLoss, .loss cv_loss)]
   | none => [])

/-- `package[k]` for a key expected to hold a number: a missing key is
Python's `KeyError`, a non-numeric value the `TypeError` the construction
call would raise downstream. -/
def getNat (p : Package) (k : String) : Except String ℕ :=
  match List.lookup k p with
  | some (.nat n) => .ok n
  | some _ => .error ("TypeError: " ++ k)
  | none => .error ("KeyError: " ++ k)

/-- `package['state_dict']`, with the same error model. -/
def getSD (p : Package) (k : String) : Except String StateDict :=
  match List.lookup k p with
  | some (.sd s) => .ok s
  | some _ => .error ("TypeError: " ++ k)
  | none => .error ("KeyError: " ++ k)

/-- The weights torch draws when `load_model_from_package` constructs the
fresh `cls(...)` — arbitrary, and irrelevant because `load_state_dict`
replaces every parameter. -/
def freshW3 : ℕ → ℕ → ℕ → ℚ := fun _ _ _ => 0

/-- Fresh 2-index weights of the construction inside the loader. -/
def freshW2 : ℕ → ℚ := fun _ => 0

/-- `ConvTasNet.load_model_from_package(package)`: read the eight
hyperparameters, construct `cls(N, L, B, H, P, X, R, C)` — with the DEFAULT
`norm_type="gLN"`, since the package holds no norm type — then load the
parameter snapshot with strict `load_state_dict`, which can itself raise on
a key mismatch. -/
def ConvTasNet.load_model_from_package (p : Package) : Except String ConvTasNet := do
  let N ← getNat p keyN
  let L ← getNat p keyL
  let B ← getNat p keyB
  let H ← getNat p keyH
  let P ← getNat p keyP
  let X ← getNat p keyX
  let R ← getNat p keyR
  let C ← getNat p keyC
  let model := ConvTasNet.init N L B H P X R C normGLN freshW3 (fun _ _ => 0)
    freshW3 (fun _ _ => freshW3) (fun _ _ => freshW3) (fun _ _ => freshW3) freshW3
  let sd ← getSD p keyStateDict
  model.load_state_dict sd

/-- The keys `load_model_from_package` reads, in lookup order. -/
def requiredKeys : List String :=
  [keyN, keyL, keyB, keyH, keyP, keyX, keyR, keyC, keyStateDict]

/-- Deleting a key from a package (for probing malformed checkpoints). -/
def removeKey (p : Package) (k : String) : Package :=
  p.filter (fun kv => kv.fst ≠ k)

/-- The identity, standing in for the square root where a concrete instance
is needed (any function works for the statements that use it). -/
def idFun : ℚ → ℚ := fun q => q

/-- The constant-one function, a positive stand-in for the exponential. -/
def oneFun : ℚ → ℚ := fun _ => 1

/-- C8: the normalization selector maps "gLN" to the global variant, "cLN"
to the channel-wise variant, and every other string silently to the
batch-normalization variant. -/
theorem chose_norm_selector (c : ℕ) :
    chose_norm normGLN c = .gLN (GlobalLayerNorm.init c) ∧
    chose_norm normCLN c = .cLN (ChannelwiseLayerNorm.init c) ∧
    ∀ nt : String, nt ≠ normGLN → nt ≠ normCLN →
      chose_norm nt c = .bn (BatchNorm1d.init c) := by
  refine ⟨by simp [chose_norm], by simp [chose_norm, normGLN, normCLN], ?_⟩
  intro nt h1 h2
  simp [chose_norm, h1, h2]

/-- C10: `serialize` stores the `tr_loss` and `cv_loss` keys exactly when
the `tr_loss` argument is not `None`; in that case `cv_loss` is stored even
when its value is `None`. -/
theorem serialize_loss_keys (m : ConvTasNet) (opt : Optimizer) (ep : ℕ)
    (tr cv : Option ℚ) :
    (List.lookup keyTrLoss (m.serialize opt ep tr cv)).isSome = tr.isSome ∧
    (List.lookup keyCvLoss (m.serialize opt ep tr cv)).isSome = tr.isSome ∧
    (tr.isSome = true →
      List.lookup keyCvLoss (m.serialize opt ep tr cv) = some (.loss cv)) := by
  cases tr with
  | none => exact ⟨rfl, rfl, fun h => by cases h⟩
  | some t => exact ⟨rfl, rfl, fun _ => rfl⟩

/-- C5: every entry of the encoder's output is nonnegative — the final
`F.relu` clamps negatives to zero. -/
theorem encoder_output_nonneg (enc : Encoder) (x out : Tensor3)
    (h : enc.forward x = some out) : ∀ m k n, 0 ≤ out.data m k n := by
  intro m k n
  unfold Encoder.forward at h
  simp only [bind, Option.bind_eq_some] at h
  obtain ⟨c, _, hout⟩ := h
  injection hout with hout
  subst hout
  exact le_max_left 0 _

/-- All-ones 3-index weights, for concrete instances. -/
def onesW3 : ℕ → ℕ → ℕ → ℚ := fun _ _ _ => 1

/-- A concrete encoder with L = 4, N = 3. -/
def enc0 : Encoder := Encoder.init 4 3 onesW3

/-- A concrete integer-valued `[2, 3, 4]` input batch. -/
def xEnc0 : Tensor3 := ⟨2, 3, 4, fun _ _ _ => 1⟩

/-- Witness for C5 at a concrete encoder and input. -/
theorem encoder_output_nonneg_witness :
    ∃ out, enc0.forward xEnc0 = some out ∧ ∀ m k n, 0 ≤ out.data m k n := by
  have hs : (enc0.forward xEnc0).isSome = true := rfl
  exact ⟨_, (Option.some_get hs).symm,
    encoder_output_nonneg enc0 xEnc0 _ (Option.some_get hs).symm⟩

/-- C6: channel-wise normalization has no cross-time leakage: if two inputs
agree away from time step `k0`, the normalized outputs agree at every time
step other than `k0`. -/
theorem cln_no_cross_time_leakage (s : ℚ → ℚ) (mod : ChannelwiseLayerNorm)
    (y y' : Tensor3) (k0 : ℕ) (hd1 : y'.d1 = y.d1)
    (hagree : ∀ m n k, k ≠ k0 → y'.data m n k = y.data m n k) :
    ∀ m n k, k ≠ k0 →
      (ChannelwiseLayerNorm.forward s mod y').data m n k =
        (ChannelwiseLayerNorm.forward s mod y).data m n k := by
  intro m n k hk
  have hmean : clnMean y' m k = clnMean y m k := by
    unfold clnMean
    rw [hd1]
    congr 1
    exact Finset.sum_congr rfl fun i _ => hagree m i k hk
  have hvar : clnVar y' m k = clnVar y m k := by
    unfold clnVar
    rw [hd1, hmean]
    congr 1
    exact Finset.sum_congr rfl fun i _ => by rw [hagree m i k hk]
  unfold ChannelwiseLayerNorm.forward
  dsimp only
  rw [hagree m n k hk, hmean, hvar]

/-- A concrete 2-channel cLN module with initialised parameters. -/
def cln0 : ChannelwiseLayerNorm := ChannelwiseLayerNorm.init 2

/-- A concrete `[1, 2, 2]` input. -/
def yCln : Tensor3 := ⟨1, 2, 2, fun _ _ k => if k = 0 then 1 else 0⟩

/-- The same input perturbed at time step 0 only. -/
def yCln' : Tensor3 := ⟨1, 2, 2, fun _ _ k => if k = 0 then 2 else 0⟩

/-- Witness for C6: the perturbation at time 0 leaves time 1 unchanged. -/
theorem cln_no_cross_time_leakage_witness :
    (ChannelwiseLayerNorm.forward idFun cln0 yCln').data 0 0 1 =
      (ChannelwiseLayerNorm.forward idFun cln0 yCln).data 0 0 1 :=
  cln_no_cross_time_leakage idFun cln0 yCln yCln' 0 rfl
    (fun m n k hk => by simp [yCln, yCln', hk]) 0 0 1 (by decide)

/-- The shape of a successful 1-D convolution. -/
theorem conv1d_some_shape {c : Conv1d} {x y : Tensor3} (h : c.forward x = some y) :
    y.d0 = x.d0 ∧ y.d1 = c.out_channels ∧
      y.d2 = (x.d2 + 2 * c.padding - (c.dilation * (c.kernel_size - 1) + 1)) /
        c.stride + 1 := by
  rw [Conv1d.forward] at h
  split_ifs at h with hc
  injection h with h
  subst h
  exact ⟨rfl, rfl, rfl⟩

/-- A successful 1-D convolution passed all of torch's shape checks. -/
theorem conv1d_some_guard {c : Conv1d} {x y : Tensor3} (h : c.forward x = some y) :
    x.d1 = c.in_channels ∧ 1 ≤ c.kernel_size ∧ 1 ≤ c.stride ∧ 1 ≤ c.dilation ∧
      1 ≤ c.groups ∧ c.in_channels % c.groups = 0 ∧ c.out_channels % c.groups = 0 ∧
      c.dilation * (c.kernel_size - 1) + 1 ≤ x.d2 + 2 * c.padding := by
  rw [Conv1d.forward] at h
  split_ifs at h with hc
  exact hc

/-- A 1-D convolution whose shape checks pass succeeds. -/
theorem conv1d_isSome (c : Conv1d) (x : Tensor3)
    (hc : x.d1 = c.in_channels ∧ 1 ≤ c.kernel_size ∧ 1 ≤ c.stride ∧ 1 ≤ c.dilation ∧
      1 ≤ c.groups ∧ c.in_channels % c.groups = 0 ∧ c.out_channels % c.groups = 0 ∧
      c.dilation * (c.kernel_size - 1) + 1 ≤ x.d2 + 2 * c.padding) :
    ∃ y, c.forward x = some y := by
  rw [Conv1d.forward, if_pos hc]
  exact ⟨_, rfl⟩

/-- Every norm variant preserves the input shape. -/
theorem norm_forward_shape (s : ℚ → ℚ) (nm : NormModule) (y : Tensor3) :
    (nm.forward s y).d0 = y.d0 ∧ (nm.forward s y).d1 = y.d1 ∧
      (nm.forward s y).d2 = y.d2 := by
  cases nm <;> exact ⟨rfl, rfl, rfl⟩

/-- The depthwise-separable convolution built with P = 1: padding and chomp
size are 0, `[:, :, :-0]` empties the time axis. -/
def dsP1 : DepthwiseSeparableConv :=
  DepthwiseSeparableConv.init 1 1 1 1 0 1 normGLN onesW3 onesW3

/-- A concrete `[1, 1, 1]` input. -/
def xDs1 : Tensor3 := ⟨1, 1, 1, fun _ _ _ => 1⟩

/-- C4 counterexample: with kernel size P = 1 (dilation 1, padding
(P-1)*1 = 0) the forward pass does not return a length-K output at all —
the zero-size chomp empties the time axis and the pointwise convolution
fails — refuting the claim for P = 1. -/
theorem dsconv_chomp_p1_cex :
    DepthwiseSeparableConv.forward idFun dsP1 xDs1 = none ∧ xDs1.d2 = 1 :=
  ⟨rfl, rfl⟩

/-- C4 (amended to P ≥ 2): the depthwise-separable convolution with causal
padding (P-1)*d and dilation d ≥ 1 succeeds on any nonempty input with
matching channels and restores the input's time-length exactly. -/
theorem dsconv_preserves_length (s : ℚ → ℚ) (inC outC P d : ℕ) (nt : String)
    (wd wp : ℕ → ℕ → ℕ → ℚ) (x : Tensor3)
    (hP : 2 ≤ P) (hd : 1 ≤ d) (hin : 1 ≤ inC) (hch : x.d1 = inC) (hK : 1 ≤ x.d2) :
    ∃ out, DepthwiseSeparableConv.forward s
        (DepthwiseSeparableConv.init inC outC P 1 ((P - 1) * d) d nt wd wp) x =
          some out ∧
      out.d0 = x.d0 ∧ out.d1 = outC ∧ out.d2 = x.d2 := by
  have hP1 : 1 ≤ (P - 1) * d :=
    Nat.one_le_iff_ne_zero.mpr (Nat.mul_ne_zero (by omega) (by omega))
  have hg1 : x.d1 = inC ∧ 1 ≤ P ∧ 1 ≤ 1 ∧ 1 ≤ d ∧ 1 ≤ inC ∧ inC % inC = 0 ∧
      inC % inC = 0 ∧ d * (P - 1) + 1 ≤ x.d2 + 2 * ((P - 1) * d) := by
    refine ⟨hch, by omega, le_refl 1, hd, hin, Nat.mod_self inC, Nat.mod_self inC, ?_⟩
    rw [Nat.mul_comm d (P - 1)]
    omega
  obtain ⟨a, ha⟩ := conv1d_isSome ⟨inC, inC, P, 1, (P - 1) * d, d, inC, wd⟩ x hg1
  obtain ⟨ha0, ha1, ha2⟩ := conv1d_some_shape ha
  have ha2' : a.d2 = x.d2 + (P - 1) * d := by
    rw [ha2]
    show (x.d2 + 2 * ((P - 1) * d) - (d * (P - 1) + 1)) / 1 + 1 = x.d2 + (P - 1) * d
    rw [Nat.mul_comm d (P - 1), Nat.div_one]
    omega
  set b := (Chomp1d.mk ((P - 1) * d)).forward a with hb
  have hb0 : b.d0 = x.d0 := ha0
  have hb1 : b.d1 = inC := ha1
  have hb2 : b.d2 = x.d2 := by
    show (if (P - 1) * d = 0 then 0 else a.d2 - (P - 1) * d) = x.d2
    rw [if_neg (by omega), ha2']
    omega
  set nm := chose_norm nt inC with hnm
  set c2 := nm.forward s ((PReLU.mk (1 / 4)).forward b) with hc2
  obtain ⟨hn0, hn1, hn2⟩ := norm_forward_shape s nm ((PReLU.mk (1 / 4)).forward b)
  have hc20 : c2.d0 = x.d0 := by rw [hc2, hn0]; exact hb0
  have hc21 : c2.d1 = inC := by rw [hc2, hn1]; exact hb1
  have hc22 : c2.d2 = x.d2 := by rw [hc2, hn2]; exact hb2
  have hg2 : c2.d1 = inC ∧ 1 ≤ 1 ∧ 1 ≤ 1 ∧ 1 ≤ 1 ∧ 1 ≤ 1 ∧ inC % 1 = 0 ∧
      outC % 1 = 0 ∧ 1 * (1 - 1) + 1 ≤ c2.d2 + 2 * 0 := by
    refine ⟨hc21, le_refl 1, le_refl 1, le_refl 1, le_refl 1, Nat.mod_one inC,
      Nat.mod_one outC, ?_⟩
    omega
  obtain ⟨out, hout⟩ := conv1d_isSome ⟨inC, outC, 1, 1, 0, 1, 1, wp⟩ c2 hg2
  obtain ⟨ho0, ho1, ho2⟩ := conv1d_some_shape hout
  refine ⟨out, ?_, by rw [ho0, hc20], ho1, ?_⟩
  · show (Conv1d.forward ⟨inC, inC, P, 1, (P - 1) * d, d, inC, wd⟩ x).bind _ = some out
    rw [ha]
    show Conv1d.forward ⟨inC, outC, 1, 1, 0, 1, 1, wp⟩ c2 = some out
    exact hout
  · rw [ho2]
    show (c2.d2 + 2 * 0 - (1 * (1 - 1) + 1)) / 1 + 1 = x.d2
    rw [Nat.div_one]
    omega

/-- A concrete dsconv with the claim's P = 3, dilation 4, padding 8. -/
def dsP3 : DepthwiseSeparableConv :=
  DepthwiseSeparableConv.init 1 1 3 1 8 4 normGLN onesW3 onesW3

/-- A concrete `[1, 1, 5]` input. -/
def xDs5 : Tensor3 := ⟨1, 1, 5, fun _ _ _ => 1⟩

/-- Witness for the amended C4 at P = 3, dilation 4, padding (3-1)*4 = 8:
chomping 8 restores the input's length 5. -/
theorem dsconv_preserves_length_witness :
    ∃ out, DepthwiseSeparableConv.forward idFun dsP3 xDs5 = some out ∧
      out.d0 = 1 ∧ out.d1 = 1 ∧ out.d2 = 5 := by
  have h := dsconv_preserves_length idFun 1 1 3 4 normGLN onesW3 onesW3 xDs5
    (by decide) (by decide) (by decide) rfl (by decide)
  exact h

/-- A concrete 2-channel gLN module with initialised parameters. -/
def gln0 : GlobalLayerNorm := GlobalLayerNorm.init 2

/-- A concrete `[1, 2, 2]` input: channel values (1, 0) at time 0, (0, 0)
at time 1. -/
def yGln : Tensor3 := ⟨1, 2, 2, fun _ n k => if k = 0 ∧ n = 0 then 1 else 0⟩

/-- The same input with the two channel values of time step 0 swapped — a
perturbation of a single time step that preserves the global mean and
variance. -/
def yGln' : Tensor3 := ⟨1, 2, 2, fun _ n k => if k = 0 ∧ n = 1 then 1 else 0⟩

/-- C7 counterexample: the inputs differ (only) at time step 0, yet the
globally normalized outputs agree at both channels of time step 1 — a
single-time-step perturbation need not change the output at all other time
steps. -/
theorem gln_swap_perturbation_cex :
    (∀ n k, k ≠ 0 → yGln'.data 0 n k = yGln.data 0 n k) ∧
    yGln'.data 0 0 0 ≠ yGln.data 0 0 0 ∧
    (GlobalLayerNorm.forward idFun gln0 yGln').data 0 0 1 =
      (GlobalLayerNorm.forward idFun gln0 yGln).data 0 0 1 ∧
    (GlobalLayerNorm.forward idFun gln0 yGln').data 0 1 1 =
      (GlobalLayerNorm.forward idFun gln0 yGln).data 0 1 1 := by
  refine ⟨fun n k hk => by simp [yGln, yGln', hk], by norm_num [yGln, yGln'], ?_, ?_⟩ <;>
    norm_num [GlobalLayerNorm.forward, gln0, GlobalLayerNorm.init, glnMean, glnVar,
      yGln, yGln', idFun, Finset.sum_range_succ]

/-- C7 (amended): global-layer-norm statistics couple every position — any
perturbation of time step `k0` of batch element `m0` that changes the
global mean while preserving the global variance changes the normalized
output at EVERY other time step and every channel with a nonzero gain
(and by the counterexample above, a perturbation that preserves both
statistics changes no other time step, so the coupling is exactly through
the two global statistics). -/
theorem gln_global_coupling (s : ℚ → ℚ) (mod : GlobalLayerNorm) (y y' : Tensor3)
    (m0 k0 : ℕ)
    (hagree : ∀ n k, k ≠ k0 → y'.data m0 n k = y.data m0 n k)
    (hmean : glnMean y' m0 ≠ glnMean y m0)
    (hvar : glnVar y' m0 = glnVar y m0)
    (hs : s (glnVar y m0 + EPS) ≠ 0) :
    ∀ n k, k ≠ k0 → mod.gamma n ≠ 0 →
      (GlobalLayerNorm.forward s mod y').data m0 n k ≠
        (GlobalLayerNorm.forward s mod y).data m0 n k := by
  intro n k hk hγ heq
  apply hmean
  unfold GlobalLayerNorm.forward at heq
  dsimp only at heq
  rw [hvar, hagree n k hk] at heq
  have h1 := add_right_cancel heq
  have h2 := (div_left_inj' hs).mp h1
  have h3 := mul_left_cancel₀ hγ h2
  exact sub_right_inj.mp h3

/-- A concrete single-channel gLN module. -/
def glnW : GlobalLayerNorm := GlobalLayerNorm.init 1

/-- A concrete `[1, 1, 2]` input with values (0, 2): mean 1, variance 1. -/
def yGlnA : Tensor3 := ⟨1, 1, 2, fun _ _ k => if k = 0 then 0 else 2⟩

/-- Time step 0 perturbed to 4: values (4, 2): mean 3, variance still 1. -/
def yGlnA' : Tensor3 := ⟨1, 1, 2, fun _ _ k => if k = 0 then 4 else 2⟩

/-- Witness for the amended C7: the mean-changing, variance-preserving
perturbation of time step 0 changes the output at time step 1. -/
theorem gln_global_coupling_witness :
    (GlobalLayerNorm.forward idFun glnW yGlnA').data 0 0 1 ≠
      (GlobalLayerNorm.forward idFun glnW yGlnA).data 0 0 1 :=
  gln_global_coupling idFun glnW yGlnA yGlnA' 0 0
    (fun n k hk => by simp [yGlnA, yGlnA', hk])
    (by norm_num [glnMean, yGlnA, yGlnA', Finset.sum_range_succ])
    (by norm_num [glnVar, glnMean, yGlnA, yGlnA', Finset.sum_range_succ])
    (by norm_num [idFun, glnVar, glnMean, yGlnA, EPS, Finset.sum_range_succ])
    0 1 (by decide) (by norm_num [glnW, GlobalLayerNorm.init])

/-- The shape of a successful `view`. -/
theorem view4_some_shape {t : Tensor3} {a b c d : ℕ} {v : Tensor4}
    (h : t.view4 a b c d = some v) :
    v.d0 = a ∧ v.d1 = b ∧ v.d2 = c ∧ v.d3 = d := by
  rw [Tensor3.view4] at h
  split_ifs at h
  injection h with h
  subst h
  exact ⟨rfl, rfl, rfl, rfl⟩

/-- The shape of the decoder's successful broadcast product. -/
theorem mulMask_some_shape {w : Tensor3} {mask sw : Tensor4}
    (h : mulMask w mask = some sw) :
    sw.d0 = mask.d0 ∧ sw.d1 = mask.d1 ∧ sw.d2 = mask.d2 ∧ sw.d3 = mask.d3 := by
  rw [mulMask] at h
  split_ifs at h
  injection h with h
  subst h
  exact ⟨rfl, rfl, rfl, rfl⟩

/-- The shape of a successful linear layer on a 4-D tensor. -/
theorem linear4_some_shape {l : Linear} {t u : Tensor4} (h : l.forward4 t = some u) :
    u.d0 = t.d0 ∧ u.d1 = t.d1 ∧ u.d2 = t.d2 ∧ u.d3 = l.out_features := by
  rw [Linear.forward4] at h
  split_ifs at h
  injection h with h
  subst h
  exact ⟨rfl, rfl, rfl, rfl⟩

/-- The encoder maps `[M, K, L]` to `[M, K, N]` whenever it succeeds. -/
theorem encoder_forward_shape {L N : ℕ} {w : ℕ → ℕ → ℕ → ℚ} {x out : Tensor3}
    (h : (Encoder.init L N w).forward x = some out) :
    out.d0 = x.d0 ∧ out.d1 = x.d1 ∧ out.d2 = N := by
  unfold Encoder.forward at h
  simp only [bind, Option.bind_eq_some] at h
  obtain ⟨c, hc, hout⟩ := h
  have hg : 1 * (1 - 1) + 1 ≤ x.d1 + 2 * 0 := (conv1d_some_guard hc).2.2.2.2.2.2.2
  obtain ⟨hc0, hc1, hc2⟩ := conv1d_some_shape hc
  have hc2' : c.d2 = (x.d1 + 2 * 0 - (1 * (1 - 1) + 1)) / 1 + 1 := hc2
  rw [Nat.div_one] at hc2'
  injection hout with hout
  subst hout
  exact ⟨hc0, by show c.d2 = x.d1; omega, hc1⟩

/-- The separator maps `[M, K, N]` to a `[M, K, C, N]` mask whenever it
succeeds, the `C` taken from its hyperparameters and `M`, `K`, `N` from the
input's shape. -/
theorem separator_mask_shape {e s : ℚ → ℚ} {tcn : TemporalConvNet}
    {x : Tensor3} {mask : Tensor4} (h : tcn.forward e s x = some mask) :
    mask.d0 = x.d0 ∧ mask.d1 = x.d1 ∧ mask.d2 = tcn.C ∧ mask.d3 = x.d2 := by
  unfold TemporalConvNet.forward at h
  simp only [bind, Option.bind_eq_some] at h
  obtain ⟨x2, _, x3, _, score, _, v, hv, hmask⟩ := h
  obtain ⟨hv0, hv1, hv2, hv3⟩ := view4_some_shape hv
  injection hmask with hmask
  subst hmask
  exact ⟨hv0, hv1, hv2, hv3⟩

/-- The decoder maps a latent batch and a `[M, K, C, N]` mask to
`[M, C, K, L]` whenever it succeeds. -/
theorem decoder_forward_shape {N L : ℕ} {wv : ℕ → ℕ → ℚ} {w : Tensor3}
    {mask out : Tensor4} (h : (Decoder.init N L wv).forward w mask = some out) :
    out.d0 = mask.d0 ∧ out.d1 = mask.d2 ∧ out.d2 = mask.d1 ∧ out.d3 = L := by
  unfold Decoder.forward at h
  simp only [bind, Option.bind_eq_some] at h
  obtain ⟨sw, hsw, es, hes, hout⟩ := h
  obtain ⟨hs0, hs1, hs2, hs3⟩ := mulMask_some_shape hsw
  obtain ⟨he0, he1, he2, he3⟩ := linear4_some_shape hes
  injection hout with hout
  subst hout
  refine ⟨?_, ?_, ?_, ?_⟩
  · show es.d0 = mask.d0
    rw [he0, hs0]
  · show es.d2 = mask.d2
    rw [he2, hs2]
  · show es.d1 = mask.d1
    rw [he1, hs1]
  · exact he3

/-- C2: for every model built from the hyperparameters and every input, a
successful forward pass returns exactly the shape `[M, C, K, L]`. -/
theorem conv_tasnet_forward_shape (e s : ℚ → ℚ) (N L B H P X R C : ℕ)
    (nt : String) (wEnc : ℕ → ℕ → ℕ → ℚ) (wDec : ℕ → ℕ → ℚ)
    (wb : ℕ → ℕ → ℕ → ℚ) (wc wd wp : ℕ → ℕ → ℕ → ℕ → ℕ → ℚ)
    (wm : ℕ → ℕ → ℕ → ℚ) (x : Tensor3) (out : Tensor4)
    (h : ConvTasNet.forward e s
      (ConvTasNet.init N L B H P X R C nt wEnc wDec wb wc wd wp wm) x = some out) :
    out.d0 = x.d0 ∧ out.d1 = C ∧ out.d2 = x.d1 ∧ out.d3 = L := by
  unfold ConvTasNet.forward at h
  simp only [bind, Option.bind_eq_some] at h
  obtain ⟨w, hw, mask, hmask, hdec⟩ := h
  have hw' : (Encoder.init L N wEnc).forward x = some w := hw
  obtain ⟨hw0, hw1, hw2⟩ := encoder_forward_shape hw'
  have hmask' : TemporalConvNet.forward e s
      (TemporalConvNet.init N B H P X R C nt wb wc wd wp wm) w = some mask := hmask
  obtain ⟨hm0, hm1, hm2, hm3⟩ := separator_mask_shape hmask'
  have hm2' : mask.d2 = C := hm2
  have hdec' : (Decoder.init N L wDec).forward w mask = some out := hdec
  obtain ⟨ho0, ho1, ho2, ho3⟩ := decoder_forward_shape hdec'
  exact ⟨by rw [ho0, hm0, hw0], by rw [ho1, hm2'], by rw [ho2, hm1, hw1], ho3⟩

/-- The concrete scenario's network: N=3, L=4, B=2, H=3, P=2, X=3, R=2,
C=2, norm type gLN. -/
def net0 : ConvTasNet :=
  ConvTasNet.init 3 4 2 3 2 3 2 2 normGLN onesW3 (fun _ _ => 1) onesW3
    (fun _ _ => onesW3) (fun _ _ => onesW3) (fun _ _ => onesW3) onesW3

/-- A concrete integer-valued `[2, 3, 4]` mixture batch. -/
def x0 : Tensor3 := ⟨2, 3, 4, fun _ _ _ => 1⟩

/-- Witness for C2, the spec's concrete scenario: M=2, K=3, L=4 input runs
through the full network without raising and yields shape (2, 2, 3, 4). -/
theorem conv_tasnet_forward_shape_witness :
    ∃ out, ConvTasNet.forward oneFun idFun net0 x0 = some out ∧
      out.d0 = 2 ∧ out.d1 = 2 ∧ out.d2 = 3 ∧ out.d3 = 4 := by
  have hs : (ConvTasNet.forward oneFun idFun net0 x0).isSome = true := rfl
  have h := (Option.some_get hs).symm
  have hshape := conv_tasnet_forward_shape oneFun idFun 3 4 2 3 2 3 2 2 normGLN
    onesW3 (fun _ _ => 1) onesW3 (fun _ _ => onesW3) (fun _ _ => onesW3)
    (fun _ _ => onesW3) onesW3 x0 _ h
  exact ⟨_, h, hshape.1, hshape.2.1, hshape.2.2.1, hshape.2.2.2⟩

/-- C1: every mask the separator produces is entrywise in [0, 1] and sums
to 1 across the source axis (axis 2 of the `[M, K, C, N]` result) for every
(batch, frame, filter) triple; the exponential's positivity is the only
property of it used. -/
theorem separator_mask_softmax_invariant (e s : ℚ → ℚ) (hexp : ∀ q, 0 < e q)
    (tcn : TemporalConvNet) (x : Tensor3) (mask : Tensor4)
    (h : tcn.forward e s x = some mask) (hC : 1 ≤ tcn.C) :
    mask.d2 = tcn.C ∧
    (∀ m k n c, c < tcn.C → 0 ≤ mask.data m k c n ∧ mask.data m k c n ≤ 1) ∧
    (∀ m k n, ∑ c ∈ Finset.range tcn.C, mask.data m k c n = 1) := by
  have hd2 := (separator_mask_shape h).2.2.1
  unfold TemporalConvNet.forward at h
  simp only [bind, Option.bind_eq_some] at h
  obtain ⟨x2, _, x3, _, score, _, v, hv, hmask⟩ := h
  have hv2 : v.d2 = tcn.C := (view4_some_shape hv).2.2.1
  injection hmask with hmask
  subst hmask
  have hData : ∀ m k c n, (softmax4 e v).data m k c n =
      e (v.data m k c n) / ∑ i ∈ Finset.range tcn.C, e (v.data m k i n) := by
    intro m k c n
    show e (v.data m k c n) / ∑ i ∈ Finset.range v.d2, e (v.data m k i n) = _
    rw [hv2]
  have hD : ∀ m k n, 0 < ∑ i ∈ Finset.range tcn.C, e (v.data m k i n) :=
    fun m k n => Finset.sum_pos (fun i _ => hexp _)
      (Finset.nonempty_range_iff.mpr (by omega))
  refine ⟨hd2, fun m k n c hc => ?_, fun m k n => ?_⟩
  · rw [hData]
    constructor
    · exact le_of_lt (div_pos (hexp _) (hD m k n))
    · rw [div_le_one (hD m k n)]
      exact Finset.single_le_sum (f := fun i => e (v.data m k i n))
        (fun i _ => (hexp _).le) (Finset.mem_range.mpr hc)
  · calc ∑ c ∈ Finset.range tcn.C, (softmax4 e v).data m k c n
        = ∑ c ∈ Finset.range tcn.C,
            e (v.data m k c n) / ∑ i ∈ Finset.range tcn.C, e (v.data m k i n) :=
          Finset.sum_congr rfl fun c _ => hData m k c n
      _ = 1 := by rw [← Finset.sum_div, div_self (hD m k n).ne']

/-- A tiny separator (N=1, B=1, H=1, P=2, X=1, R=1, C=2) for the witness. -/
def tcn0 : TemporalConvNet :=
  TemporalConvNet.init 1 1 1 2 1 1 2 normGLN onesW3 (fun _ _ => onesW3)
    (fun _ _ => onesW3) (fun _ _ => onesW3) onesW3

/-- A concrete `[1, 1, 1]` latent input. -/
def xTcn : Tensor3 := ⟨1, 1, 1, fun _ _ _ => 1⟩

/-- Witness for C1 at a concrete separator and latent input. -/
theorem separator_mask_softmax_invariant_witness :
    (1 : ℕ) ≤ 2 ∧ ∃ mask, tcn0.forward oneFun idFun xTcn = some mask ∧
      mask.d2 = 2 ∧
      (∀ m k n c, c < 2 → 0 ≤ mask.data m k c n ∧ mask.data m k c n ≤ 1) ∧
      (∀ m k n, ∑ c ∈ Finset.range 2, mask.data m k c n = 1) := by
  have hs : (tcn0.forward oneFun idFun xTcn).isSome = true := rfl
  have h := (Option.some_get hs).symm
  exact ⟨by decide, _, h,
    separator_mask_softmax_invariant oneFun idFun (fun q => one_pos) tcn0 xTcn _ h
      (by decide)⟩

/-- Indexing a mapped range below its length. -/
theorem getD_map_range {α : Type} (n i : ℕ) (f : ℕ → α) (d : α) (h : i < n) :
    ((List.range n).map f).getD i d = f i := by
  rw [List.getD_eq_getElem?_getD, List.getElem?_map, List.getElem?_range h]
  rfl

/-- Destructuring a successful `Except` bind. -/
theorem except_bind_ok {ε α β : Type} {e : Except ε α} {f : α → Except ε β} {b : β}
    (h : e >>= f = .ok b) : ∃ a, e = .ok a ∧ f a = .ok b := by
  cases e with
  | error err => exact absurd h (by simp [Bind.bind, Except.bind])
  | ok a => exact ⟨a, rfl, by simpa [Bind.bind, Except.bind] using h⟩

/-- A successful numeric read means the key is present. -/
theorem getNat_ok_lookup {p : Package} {k : String} {n : ℕ}
    (h : getNat p k = .ok n) : (List.lookup k p).isSome = true := by
  unfold getNat at h
  cases hl : List.lookup k p with
  | none => rw [hl] at h; cases h
  | some v => rfl

/-- A successful snapshot read means the key is present. -/
theorem getSD_ok_lookup {p : Package} {k : String} {sd : StateDict}
    (h : getSD p k = .ok sd) : (List.lookup k p).isSome = true := by
  unfold getSD at h
  cases hl : List.lookup k p with
  | none => rw [hl] at h; cases h
  | some v => rfl

/-- Loading a gLN-built block's recorded parameters into a freshly
constructed gLN block reproduces the original block. -/
theorem loadFrom_extract (inC outC k st pad dil : ℕ)
    (wf1 wf2 wf3 w1 w2 w3 : ℕ → ℕ → ℕ → ℚ) (sd : StateDict) (r x : ℕ)
    (h1 : sd.blockConvW r x = w1) (h2 : sd.blockPreluA r x = 1 / 4)
    (h3 : sd.blockNormGamma r x = fun _ => 1)
    (h4 : sd.blockNormBeta r x = fun _ => 0)
    (h5 : sd.dwW r x = w2) (h6 : sd.dsPreluA r x = 1 / 4)
    (h7 : sd.dsNormGamma r x = fun _ => 1)
    (h8 : sd.dsNormBeta r x = fun _ => 0)
    (h9 : sd.pwW r x = w3) :
    (TemporalBlock.init inC outC k st pad dil normGLN wf1 wf2 wf3).loadFrom sd r x =
      TemporalBlock.init inC outC k st pad dil normGLN w1 w2 w3 := by
  unfold TemporalBlock.loadFrom
  rw [h1, h2, h3, h4, h5, h6, h7, h8, h9]
  rfl

/-- Loading a gLN model's state dict into the freshly constructed model the
package loader builds passes the strict key check (both sides' norms carry
`gamma`/`beta` keys) and reproduces the original model exactly. -/
theorem load_state_dict_roundtrip (N L B H P X R C : ℕ)
    (wEnc : ℕ → ℕ → ℕ → ℚ) (wDec : ℕ → ℕ → ℚ) (wb : ℕ → ℕ → ℕ → ℚ)
    (wc wd wp : ℕ → ℕ → ℕ → ℕ → ℕ → ℚ) (wm : ℕ → ℕ → ℕ → ℚ) :
    (ConvTasNet.init N L B H P X R C normGLN freshW3 (fun _ _ => 0) freshW3
        (fun _ _ => freshW3) (fun _ _ => freshW3) (fun _ _ => freshW3)
        freshW3).load_state_dict
      (ConvTasNet.init N L B H P X R C normGLN wEnc wDec wb wc wd wp
        wm).state_dict =
    .ok (ConvTasNet.init N L B H P X R C normGLN wEnc wDec wb wc wd wp wm) := by
  have hmb : ∀ r x, r < R → x < X →
      (ConvTasNet.init N L B H P X R C normGLN wEnc wDec wb wc wd wp
        wm).separator.getBlock r x =
      TemporalBlock.init B H P 1 ((P - 1) * 2 ^ x) (2 ^ x) normGLN (wc r x)
        (wd r x) (wp r x) := by
    intro r x hr hx
    show (((List.range R).map _).getD r []).getD x blockDefault = _
    rw [getD_map_range R r _ _ hr, getD_map_range X x _ _ hx]
  have hfb : ∀ r x, r < R → x < X →
      (ConvTasNet.init N L B H P X R C normGLN freshW3 (fun _ _ => 0) freshW3
        (fun _ _ => freshW3) (fun _ _ => freshW3) (fun _ _ => freshW3)
        freshW3).separator.getBlock r x =
      TemporalBlock.init B H P 1 ((P - 1) * 2 ^ x) (2 ^ x) normGLN freshW3
        freshW3 freshW3 := by
    intro r x hr hx
    show (((List.range R).map _).getD r []).getD x blockDefault = _
    rw [getD_map_range R r _ _ hr, getD_map_range X x _ _ hx]
  have hblocks : (List.range R).map (fun r => (List.range X).map (fun x =>
      ((ConvTasNet.init N L B H P X R C normGLN freshW3 (fun _ _ => 0) freshW3
          (fun _ _ => freshW3) (fun _ _ => freshW3) (fun _ _ => freshW3)
          freshW3).separator.getBlock r x).loadFrom
        (ConvTasNet.init N L B H P X R C normGLN wEnc wDec wb wc wd wp
          wm).state_dict r x)) =
      (List.range R).map (fun r => (List.range X).map (fun x =>
        TemporalBlock.init B H P 1 ((P - 1) * 2 ^ x) (2 ^ x) normGLN (wc r x)
          (wd r x) (wp r x))) := by
    refine List.map_congr_left fun r hr => ?_
    have hr' := List.mem_range.mp hr
    refine List.map_congr_left fun x hx => ?_
    have hx' := List.mem_range.mp hx
    rw [hfb r x hr' hx']
    refine loadFrom_extract B H P 1 ((P - 1) * 2 ^ x) (2 ^ x) freshW3 freshW3
      freshW3 (wc r x) (wd r x) (wp r x) _ r x ?_ ?_ ?_ ?_ ?_ ?_ ?_ ?_ ?_ <;>
      rw [show (ConvTasNet.init N L B H P X R C normGLN wEnc wDec wb wc wd wp
        wm).state_dict = _ from rfl] <;>
      simp only [ConvTasNet.state_dict] <;>
      rw [hmb r x hr' hx'] <;> rfl
  have hguard : stateDictKeysMatch
      (ConvTasNet.init N L B H P X R C normGLN freshW3 (fun _ _ => 0) freshW3
        (fun _ _ => freshW3) (fun _ _ => freshW3) (fun _ _ => freshW3)
        freshW3)
      (ConvTasNet.init N L B H P X R C normGLN wEnc wDec wb wc wd wp
        wm).state_dict = true := by
    unfold stateDictKeysMatch
    rw [List.all_eq_true]
    intro r hr
    rw [List.all_eq_true]
    intro x hx
    have hr' : r < R := List.mem_range.mp hr
    have hx' : x < X := List.mem_range.mp hx
    have h1 : (ConvTasNet.init N L B H P X R C normGLN wEnc wDec wb wc wd wp
        wm).state_dict.blockNormKeys r x = NormKeyKind.gammaBeta := by
      show ((ConvTasNet.init N L B H P X R C normGLN wEnc wDec wb wc wd wp
        wm).separator.getBlock r x).norm.keyKind = _
      rw [hmb r x hr' hx']
      rfl
    have h2 : (ConvTasNet.init N L B H P X R C normGLN wEnc wDec wb wc wd wp
        wm).state_dict.dsNormKeys r x = NormKeyKind.gammaBeta := by
      show ((ConvTasNet.init N L B H P X R C normGLN wEnc wDec wb wc wd wp
        wm).separator.getBlock r x).dsconv.norm.keyKind = _
      rw [hmb r x hr' hx']
      rfl
    have h3 : ((ConvTasNet.init N L B H P X R C normGLN freshW3 (fun _ _ => 0)
        freshW3 (fun _ _ => freshW3) (fun _ _ => freshW3) (fun _ _ => freshW3)
        freshW3).separator.getBlock r x).norm.keyKind = NormKeyKind.gammaBeta := by
      rw [hfb r x hr' hx']
      rfl
    have h4 : ((ConvTasNet.init N L B H P X R C normGLN freshW3 (fun _ _ => 0)
        freshW3 (fun _ _ => freshW3) (fun _ _ => freshW3) (fun _ _ => freshW3)
        freshW3).separator.getBlock r x).dsconv.norm.keyKind =
        NormKeyKind.gammaBeta := by
      rw [hfb r x hr' hx']
      rfl
    rw [h1, h2, h3, h4]
    rfl
  unfold ConvTasNet.load_state_dict
  rw [if_pos hguard]
  congr 1
  show ConvTasNet.mk N L B H P X R C (Encoder.init L N wEnc)
      (TemporalConvNet.mk N B H P X R C (ChannelwiseLayerNorm.init N)
        ⟨N, B, 1, 1, 0, 1, 1, wb⟩
        ((List.range R).map (fun r => (List.range X).map (fun x =>
          ((ConvTasNet.init N L B H P X R C normGLN freshW3 (fun _ _ => 0)
              freshW3 (fun _ _ => freshW3) (fun _ _ => freshW3)
              (fun _ _ => freshW3) freshW3).separator.getBlock r x).loadFrom
            (ConvTasNet.init N L B H P X R C normGLN wEnc wDec wb wc wd wp
              wm).state_dict r x)))
        ⟨B, C * N, 1, 1, 0, 1, 1, wm⟩)
      (Decoder.init N L wDec) = _
  rw [hblocks]
  rfl

/-- C3 (amended to the default norm type): for every gLN-built model, every
optimizer state, epoch and loss arguments, reconstructing from
`serialize` yields EXACTLY the original model (hence the same architecture
and the same forward output on every input), independent of the optimizer
state. -/
theorem serialize_roundtrip_gln (N L B H P X R C : ℕ)
    (wEnc : ℕ → ℕ → ℕ → ℚ) (wDec : ℕ → ℕ → ℚ) (wb : ℕ → ℕ → ℕ → ℚ)
    (wc wd wp : ℕ → ℕ → ℕ → ℕ → ℕ → ℚ) (wm : ℕ → ℕ → ℕ → ℚ)
    (opt : Optimizer) (ep : ℕ) (tr cv : Option ℚ) :
    ConvTasNet.load_model_from_package
      (ConvTasNet.serialize
        (ConvTasNet.init N L B H P X R C normGLN wEnc wDec wb wc wd wp wm)
        opt ep tr cv) =
      .ok (ConvTasNet.init N L B H P X R C normGLN wEnc wDec wb wc wd wp wm) := by
  have hred : ConvTasNet.load_model_from_package
      (ConvTasNet.serialize
        (ConvTasNet.init N L B H P X R C normGLN wEnc wDec wb wc wd wp wm)
        opt ep tr cv) =
      (ConvTasNet.init N L B H P X R C normGLN freshW3 (fun _ _ => 0)
          freshW3 (fun _ _ => freshW3) (fun _ _ => freshW3)
          (fun _ _ => freshW3) freshW3).load_state_dict
        (ConvTasNet.init N L B H P X R C normGLN wEnc wDec wb wc wd wp
          wm).state_dict := rfl
  rw [hred, load_state_dict_roundtrip]

/-- A concrete cLN-built model (N=L=B=H=1, P=2, X=R=1, C=1). -/
def mCln : ConvTasNet :=
  ConvTasNet.init 1 1 1 1 2 1 1 1 normCLN onesW3 (fun _ _ => 1) onesW3
    (fun _ _ => onesW3) (fun _ _ => onesW3) (fun _ _ => onesW3) onesW3

/-- A concrete optimizer state. -/
def opt0 : Optimizer := ⟨0⟩

/-- The normalization module of the first temporal block. -/
def firstBlockNorm (m : ConvTasNet) : NormModule :=
  (m.separator.getBlock 0 0).norm

/-- C3 counterexample: serializing a model built with norm type "cLN" and
reconstructing it yields a model whose temporal-block normalization is the
GLOBAL variant — `serialize` stores no norm type and the loader constructs
with the default "gLN" — so the reconstructed architecture differs from the
original's normalization variant (and its forward computes gLN statistics
where the original computes cLN statistics). -/
theorem serialize_roundtrip_norm_type_cex :
    (∃ m', ConvTasNet.load_model_from_package
        (ConvTasNet.serialize mCln opt0 0 none none) = .ok m' ∧
      (firstBlockNorm m').isGLN = true) ∧
    (firstBlockNorm mCln).isGLN = false :=
  ⟨⟨_, rfl, rfl⟩, rfl⟩

/-- The docstring's third norm type, which `chose_norm` sends to
`nn.BatchNorm1d`. -/
def normBN : String := "BN"

/-- A concrete model built with `norm_type="BN"`. -/
def mBn : ConvTasNet :=
  ConvTasNet.init 1 1 1 1 2 1 1 1 normBN onesW3 (fun _ _ => 1) onesW3
    (fun _ _ => onesW3) (fun _ _ => onesW3) (fun _ _ => onesW3) onesW3

/-- A BatchNorm-built model's snapshot carries `weight`/`bias`/running-stat
keys where the gLN-built reconstruction expects `gamma`/`beta`: even with
every package key present, the strict load fails and no model is
produced. -/
theorem load_package_bn_model_fails :
    ConvTasNet.load_model_from_package
      (ConvTasNet.serialize mBn opt0 0 none none) =
      .error ("RuntimeError: state_dict parameter keys do not match") := rfl

/-- C9: loading succeeds only when the eight hyperparameter keys and
`state_dict` are all present (first conjunct); deleting any one of them
from a serialized package makes the load fail with a `KeyError` naming it,
before any state is loaded (second conjunct); `optim_dict` and `epoch` are
NOT required: for a gLN-built model — the default, and the only norm type
whose checkpoints the gLN-built reconstruction can strictly load (a
BatchNorm-built model's package fails the key match even when complete, see
`load_package_bn_model_fails`) — deleting both still loads (third
conjunct).  `Except` makes the load all-or-nothing: an error carries no
partially reconstructed model. -/
theorem load_package_key_requirements :
    (∀ (p : Package) (m : ConvTasNet),
      ConvTasNet.load_model_from_package p = .ok m →
      ∀ k ∈ requiredKeys, (List.lookup k p).isSome = true) ∧
    (∀ (m : ConvTasNet) (opt : Optimizer) (ep : ℕ) (tr cv : Option ℚ)
      (k : String), k ∈ requiredKeys →
      ConvTasNet.load_model_from_package
        (removeKey (m.serialize opt ep tr cv) k) =
        .error ("KeyError: " ++ k)) ∧
    (∀ (N L B H P X R C : ℕ) (wEnc : ℕ → ℕ → ℕ → ℚ) (wDec : ℕ → ℕ → ℚ)
      (wb : ℕ → ℕ → ℕ → ℚ) (wc wd wp : ℕ → ℕ → ℕ → ℕ → ℕ → ℚ)
      (wm : ℕ → ℕ → ℕ → ℚ) (opt : Optimizer) (ep : ℕ) (tr cv : Option ℚ),
      (ConvTasNet.load_model_from_package
        (removeKey (removeKey
          ((ConvTasNet.init N L B H P X R C normGLN wEnc wDec wb wc wd wp
            wm).serialize opt ep tr cv) keyOptimDict) keyEpoch)).isOk =
        true) := by
  refine ⟨?_, ?_, ?_⟩
  · intro p m h k hk
    unfold ConvTasNet.load_model_from_package at h
    obtain ⟨vN, hN, h⟩ := except_bind_ok h
    obtain ⟨vL, hL, h⟩ := except_bind_ok h
    obtain ⟨vB, hB, h⟩ := except_bind_ok h
    obtain ⟨vH, hH, h⟩ := except_bind_ok h
    obtain ⟨vP, hP, h⟩ := except_bind_ok h
    obtain ⟨vX, hX, h⟩ := except_bind_ok h
    obtain ⟨vR, hR, h⟩ := except_bind_ok h
    obtain ⟨vC, hC, h⟩ := except_bind_ok h
    obtain ⟨vS, hS, h⟩ := except_bind_ok h
    simp only [requiredKeys, List.mem_cons, List.not_mem_nil, or_false] at hk
    rcases hk with rfl | rfl | rfl | rfl | rfl | rfl | rfl | rfl | rfl
    · exact getNat_ok_lookup hN
    · exact getNat_ok_lookup hL
    · exact getNat_ok_lookup hB
    · exact getNat_ok_lookup hH
    · exact getNat_ok_lookup hP
    · exact getNat_ok_lookup hX
    · exact getNat_ok_lookup hR
    · exact getNat_ok_lookup hC
    · exact getSD_ok_lookup hS
  · intro m opt ep tr cv k hk
    simp only [requiredKeys, List.mem_cons, List.not_mem_nil, or_false] at hk
    rcases hk with rfl | rfl | rfl | rfl | rfl | rfl | rfl | rfl | rfl <;>
      cases tr <;> rfl
  · intro N L B H P X R C wEnc wDec wb wc wd wp wm opt ep tr cv
    have hred : ConvTasNet.load_model_from_package
        (removeKey (removeKey
          ((ConvTasNet.init N L B H P X R C normGLN wEnc wDec wb wc wd wp
            wm).serialize opt ep tr cv) keyOptimDict) keyEpoch) =
        (ConvTasNet.init N L B H P X R C normGLN freshW3 (fun _ _ => 0)
            freshW3 (fun _ _ => freshW3) (fun _ _ => freshW3)
            (fun _ _ => freshW3) freshW3).load_state_dict
          (ConvTasNet.init N L B H P X R C normGLN wEnc wDec wb wc wd wp
            wm).state_dict := by
      cases tr <;> rfl
    rw [hred, load_state_dict_roundtrip]
    rfl
